import Mathlib

/-!
# Verification of the R&D Tax Credit review / snapshot / form-lock core

A shallow embedding of the Python sources of the `Tax-Credit-R-D` repository:

* `app/review_models.py` — review statuses, roles, the allowed-transition
  table and `validate_transition`;
* `app/storage.py` — the append-only review ledger (`ReviewStorage`);
* `app/form_lock_store.py` — eligibility snapshots, form locks and the
  review-action mirror store;
* `app/form6765_calc.py` — the Form 6765 line computation.

Modelling conventions:

* Monetary amounts (`Money = condecimal(max_digits=18, decimal_places=2)`)
  are integers counted in cents.  `Decimal.quantize(Decimal("0.01"))` with
  Python's default context rounds half-to-even; it is embedded as
  `roundHalfEvenFrac` over exact integer numerator/denominator pairs
  measured in cents.
* SQLite tables are lists of row structures, ordered by insertion.
* Wall-clock values (`datetime.now`, `uuid4`) are explicit parameters.
* `hashlib.sha256` over `json.dumps(payload, sort_keys=True, default=str)`
  is modelled as an injective function of the payload: the serialization of
  these fixed schemas is injective, and SHA-256 is idealized as
  collision-free, so the content hash is represented by the canonical
  payload itself and hash equality coincides with payload equality.
-/

namespace TaxCredit

/-! ## `app/review_models.py` -/

/-- `ReviewStatus` — canonical review statuses. -/
inductive ReviewStatus where
  | RECOMMENDED_ELIGIBLE
  | RECOMMENDED_NOT_ELIGIBLE
  | MANUAL_REVIEW
  | APPROVED
  | REJECTED
  | OVERRIDDEN
deriving DecidableEq, Repr

/-- `ReviewerRole` — role definitions with permission hierarchy. -/
inductive ReviewerRole where
  | ANALYST
  | REVIEWER
  | TAX_MANAGER
  | DIRECTOR
  | PARTNER
  | ADMIN
deriving DecidableEq, Repr

open ReviewStatus ReviewerRole

instance : Fintype ReviewStatus where
  elems := {RECOMMENDED_ELIGIBLE, RECOMMENDED_NOT_ELIGIBLE, MANUAL_REVIEW,
            APPROVED, REJECTED, OVERRIDDEN}
  complete := by intro x; cases x <;> decide

instance : Fintype ReviewerRole where
  elems := {ANALYST, REVIEWER, TAX_MANAGER, DIRECTOR, PARTNER, ADMIN}
  complete := by intro x; cases x <;> decide

/-- `ALLOWED_TRANSITIONS` — key = current status, value = allowed next
statuses. -/
def ALLOWED_TRANSITIONS : ReviewStatus → List ReviewStatus
  | RECOMMENDED_ELIGIBLE => [APPROVED, REJECTED, OVERRIDDEN]
  | RECOMMENDED_NOT_ELIGIBLE => [APPROVED, REJECTED, OVERRIDDEN]
  | MANUAL_REVIEW => [APPROVED, REJECTED, OVERRIDDEN]
  | APPROVED => [OVERRIDDEN]
  | REJECTED => [OVERRIDDEN]
  | OVERRIDDEN => []

/-- `ROLE_HIERARCHY` — role hierarchy for permission checks. -/
def ROLE_HIERARCHY : ReviewerRole → Int
  | ANALYST => 0
  | REVIEWER => 1
  | TAX_MANAGER => 1
  | DIRECTOR => 2
  | PARTNER => 2
  | ADMIN => 3

/-- `can_approve_reject(role)` — a role may APPROVE or REJECT iff its rank
is at least 1. -/
def can_approve_reject (role : ReviewerRole) : Bool :=
  ROLE_HIERARCHY role ≥ 1

/-- `can_override(role)` — a role may OVERRIDE iff its rank is at least 2. -/
def can_override (role : ReviewerRole) : Bool :=
  ROLE_HIERARCHY role ≥ 2

/-- `validate_transition(current_status, new_status, reviewer_role)`.

The Python function returns a pair `(is_valid, error_message)`; only the
validity boolean is modelled (the message is free text).  A current status
of `None` ("unreviewed") is treated as `MANUAL_REVIEW`, exactly as the
special case at the top of the source function does. -/
def validate_transition (current_status : Option ReviewStatus)
    (new_status : ReviewStatus) (reviewer_role : ReviewerRole) : Bool :=
  let current := current_status.getD MANUAL_REVIEW
  if new_status ∉ ALLOWED_TRANSITIONS current then false
  else if (new_status = APPROVED ∨ new_status = REJECTED)
      ∧ ¬ can_approve_reject reviewer_role then false
  else if new_status = OVERRIDDEN ∧ ¬ can_override reviewer_role then false
  else true

/-! ## `app/storage.py` — the review ledger (`ReviewStorage`)

The `project_reviews` SQLite table is a list of rows in insertion order.
`timestamp` is an integer time stamp (the code stores ISO strings whose
lexicographic order agrees with time order). -/

/-- A row of the `project_reviews` table (= a stored `ReviewRecord`). -/
structure ReviewRow where
  review_id : String
  project_id : String
  status : ReviewStatus
  reviewer_name : String
  reviewer_role : ReviewerRole
  reason : String
  timestamp : Int
  source_decision : Option Bool
  source_confidence : Option ℚ
  source_trace_path : Option String
  review_trace_path : Option String
deriving DecidableEq, Repr

/-- `ReviewStorage.create_review` — a plain `INSERT` into a table whose
primary key is `review_id`: a duplicate key makes sqlite raise
`IntegrityError`, which the method does not catch; otherwise the row is
appended. -/
def create_review (store : List ReviewRow) (record : ReviewRow) :
    Except String (List ReviewRow) :=
  if store.any (fun r => r.review_id = record.review_id) then
    .error "UNIQUE constraint failed: project_reviews.review_id"
  else
    .ok (store ++ [record])

/-- `ReviewStorage.get_latest_review` — `ORDER BY timestamp DESC LIMIT 1`
over the rows of one project, i.e. a row with maximal timestamp. -/
def get_latest_review (store : List ReviewRow) (project_id : String) :
    Option ReviewRow :=
  List.argmax (fun r => r.timestamp)
    (store.filter (fun r => r.project_id = project_id))

/-- Stable insertion of a row into a list sorted by `le`. -/
def insertLE {α : Type} (le : α → α → Bool) (x : α) : List α → List α
  | [] => [x]
  | y :: ys => if le x y then x :: y :: ys else y :: insertLE le x ys

/-- Stable insertion sort by the boolean relation `le`. -/
def sortLE {α : Type} (le : α → α → Bool) (l : List α) : List α :=
  l.foldr (insertLE le) []

/-- `ReviewStorage.get_project_history` — all rows of a project,
`ORDER BY timestamp ASC` (oldest first). -/
def get_project_history (store : List ReviewRow) (project_id : String) :
    List ReviewRow :=
  sortLE (fun a b => a.timestamp ≤ b.timestamp)
    (store.filter (fun r => r.project_id = project_id))

/-- `ReviewState` — derived current state of one project. -/
structure ReviewState where
  project_id : String
  current_status : ReviewStatus
  last_review : Option ReviewRow
  history : List ReviewRow
deriving DecidableEq, Repr

/-- `ReviewStorage.get_current_review_state` — latest row by timestamp, or
the implicit `MANUAL_REVIEW` state with empty history when the project has
no rows. -/
def get_current_review_state (store : List ReviewRow) (project_id : String) :
    ReviewState :=
  match get_latest_review store project_id with
  | none =>
      { project_id := project_id
        current_status := ReviewStatus.MANUAL_REVIEW
        last_review := none
        history := [] }
  | some latest =>
      { project_id := project_id
        current_status := latest.status
        last_review := some latest
        history := get_project_history store project_id }

/-- The `ReviewRecord` constructed by `validate_and_create_review` (its
`uuid4` and `datetime.utcnow()` are the explicit `review_id` and
`timestamp` parameters). -/
def mkReviewRecord (project_id : String) (new_status : ReviewStatus)
    (reviewer_name : String) (reviewer_role : ReviewerRole) (reason : String)
    (source_decision : Option Bool) (source_confidence : Option ℚ)
    (source_trace_path : Option String) (review_trace_path : Option String)
    (review_id : String) (timestamp : Int) : ReviewRow :=
  { review_id := review_id
    project_id := project_id
    status := new_status
    reviewer_name := reviewer_name
    reviewer_role := reviewer_role
    reason := reason
    timestamp := timestamp
    source_decision := source_decision
    source_confidence := source_confidence
    source_trace_path := source_trace_path
    review_trace_path := review_trace_path }

/-- `ReviewStorage.validate_and_create_review` — validates the transition
from the current projected status, enforces the 20-character reason floor
for `REJECTED`/`OVERRIDDEN`, then appends a fresh record.  The Python
method returns a triple `(success, error_message, record)`; it is modelled
as `Except` carrying the new table and the created record on success. -/
def validate_and_create_review (store : List ReviewRow) (project_id : String)
    (new_status : ReviewStatus) (reviewer_name : String)
    (reviewer_role : ReviewerRole) (reason : String)
    (source_decision : Option Bool) (source_confidence : Option ℚ)
    (source_trace_path : Option String) (review_trace_path : Option String)
    (review_id : String) (timestamp : Int) :
    Except String (List ReviewRow × ReviewRow) := do
  let current_state := get_current_review_state store project_id
  if ¬ validate_transition (some current_state.current_status) new_status
      reviewer_role then
    .error "invalid transition"
  else if (new_status = ReviewStatus.REJECTED
        ∨ new_status = ReviewStatus.OVERRIDDEN)
      ∧ reason.length < 20 then
    .error "Reason must be at least 20 characters."
  else
    let record := mkReviewRecord project_id new_status reviewer_name
      reviewer_role reason source_decision source_confidence
      source_trace_path review_trace_path review_id timestamp
    let store' ← create_review store record
    .ok (store', record)

end TaxCredit

namespace TaxCredit

/-! ## `app/form_lock_store.py`

Snapshots, form locks and the review-action mirror table, each modelled as
a list of rows in insertion order.  `_utc_now()` and `uuid.uuid4()` are
explicit parameters. -/

/-- A row of the `review_actions` mirror table (statuses and roles are
stored as raw `TEXT` there). -/
structure ReviewActionRow where
  review_id : String
  project_id : String
  status : String
  reviewer_name : String
  reviewer_role : String
  reason : String
  created_at_utc : String
  source_confidence : Option ℚ
  source_trace_path : Option String
  review_trace_path : Option String
deriving DecidableEq, Repr

/-- `record_review_action` — persists a review action in the form-lock
database with `INSERT OR REPLACE`: any existing row with the same
`review_id` is deleted and the new row inserted. -/
def record_review_action (store : List ReviewActionRow)
    (row : ReviewActionRow) : List ReviewActionRow :=
  store.filter (fun r => r.review_id ≠ row.review_id) ++ [row]

/-- `get_latest_review_status` — `ORDER BY created_at_utc DESC LIMIT 1` over
one project's mirror rows. -/
def get_latest_review_status (store : List ReviewActionRow)
    (project_id : String) : Option String :=
  (List.argmax (fun r => r.created_at_utc)
    (store.filter (fun r => r.project_id = project_id))).map
      (fun r => r.status)

/-- `list_approved_projects` — keeps the project ids whose latest mirror
status is `"APPROVED"`. -/
def list_approved_projects (store : List ReviewActionRow)
    (project_ids : List String) : List String :=
  project_ids.filter
    (fun pid => get_latest_review_status store pid = some "APPROVED")

/-- The payload hashed by `_sha256` for a snapshot:
`{"tax_year": tax_year, "approved_project_ids": approved_sorted}`. -/
structure SnapPayload where
  tax_year : Int
  approved_project_ids : List String
deriving DecidableEq, Repr

/-- `_sha256(obj)` / `_sha256_dict(payload)` —
`sha256(json.dumps(payload, sort_keys=True, default=str))`.  The canonical
JSON serialization is injective on each fixed payload schema and SHA-256 is
idealized as collision-free, so the digest is modelled as the canonical
payload itself: hash equality coincides with payload equality. -/
def sha256Of {α : Type} (payload : α) : α := payload

/-- Python `sorted(set(ids))` — the sorted duplicate-free list of a list's
elements. -/
def sortedSet (ids : List String) : List String :=
  ids.toFinset.sort (· ≤ ·)

/-- `snap_{tax_year}_{sha[:12]}` — the derived snapshot id.  In the
collision-free idealization the 12-hex-character hash truncation is
represented by the hash itself, so the id is the pair of the tax year and
the hash. -/
def mk_snapshot_id (tax_year : Int) (sha : SnapPayload) : Int × SnapPayload :=
  (tax_year, sha)

/-- A row of the `eligibility_snapshots` table (primary key
`snapshot_id`). -/
structure SnapshotRow where
  snapshot_id : Int × SnapPayload
  tax_year : Int
  snapshot_sha256 : SnapPayload
  approved_projects_json : List String
  created_at_utc : String
  created_by : String
deriving DecidableEq, Repr

/-- `create_eligibility_snapshot` — freezes approved projects.  With
`approved_project_ids` supplied it uses `sorted(set(...))` of it verbatim;
otherwise it keeps the candidates whose latest mirror status is
`"APPROVED"`.  The row is written with `INSERT OR REPLACE` keyed by
`snapshot_id`.  Returns the new table plus
`(snapshot_id, snapshot_sha256, approved_project_ids)`. -/
def create_eligibility_snapshot (reviewStore : List ReviewActionRow)
    (store : List SnapshotRow) (tax_year : Int) (project_ids : List String)
    (created_by : String) (snapshot_id : Option (Int × SnapPayload))
    (approved_project_ids : Option (List String)) (now : String) :
    List SnapshotRow × ((Int × SnapPayload) × SnapPayload × List String) :=
  let approved_sorted :=
    match approved_project_ids with
    | some ids => sortedSet ids
    | none => sortedSet (list_approved_projects reviewStore project_ids)
  let payload : SnapPayload :=
    { tax_year := tax_year, approved_project_ids := approved_sorted }
  let sha := sha256Of payload
  let sid := snapshot_id.getD (mk_snapshot_id tax_year sha)
  let row : SnapshotRow :=
    { snapshot_id := sid
      tax_year := tax_year
      snapshot_sha256 := sha
      approved_projects_json := approved_sorted
      created_at_utc := now
      created_by := created_by }
  (store.filter (fun r => r.snapshot_id ≠ sid) ++ [row],
    (sid, sha, approved_sorted))

/-- A row of the `form_locks` table. -/
structure LockRow where
  lock_id : String
  tax_year : Int
  active_form_version_id : String
  locked_at_utc : String
  locked_by : String
  lock_reason : String
  is_active : Bool
deriving DecidableEq, Repr

/-- The `WHERE tax_year=? AND is_active=1` clause shared by
`get_active_form_lock` and the deactivating `UPDATE` of
`lock_form_version`. -/
def activeLocks (store : List LockRow) (tax_year : Int) : List LockRow :=
  store.filter (fun r => r.tax_year = tax_year ∧ r.is_active = true)

/-- `get_active_form_lock` — `WHERE tax_year=? AND is_active=1 ORDER BY
locked_at_utc DESC LIMIT 1`: an active row of the year with maximal
`locked_at_utc`, if any. -/
def get_active_form_lock (store : List LockRow) (tax_year : Int) :
    Option LockRow :=
  List.argmax (fun r => r.locked_at_utc) (activeLocks store tax_year)

/-- The effect of `UPDATE form_locks SET is_active=0 WHERE tax_year=? AND
is_active=1` on one row. -/
def deactivateYear (tax_year : Int) (r : LockRow) : LockRow :=
  if r.tax_year = tax_year ∧ r.is_active = true then
    { r with is_active := false }
  else r

/-- The row inserted by `lock_form_version`. -/
def mkLockRow (tax_year : Int) (form_version_id : String)
    (locked_by : String) (lock_reason : String) (lock_id : String)
    (now : String) : LockRow :=
  { lock_id := lock_id
    tax_year := tax_year
    active_form_version_id := form_version_id
    locked_at_utc := now
    locked_by := locked_by
    lock_reason := lock_reason
    is_active := true }

/-- `lock_form_version` — first `UPDATE form_locks SET is_active=0 WHERE
tax_year=? AND is_active=1`, then inserts the new lock row with
`is_active=1`.  The generated `lock_{tax_year}_{uuid4().hex[:8]}` and
`_utc_now()` are the `lock_id` and `now` parameters.  The function takes no
override reason or actor role and has no failure path; it returns the new
table and the new `lock_id`. -/
def lock_form_version (store : List LockRow) (tax_year : Int)
    (form_version_id : String) (locked_by : String) (lock_reason : String)
    (lock_id : String) (now : String) : List LockRow × String :=
  let deactivated := store.map (deactivateYear tax_year)
  let row := mkLockRow tax_year form_version_id locked_by lock_reason
    lock_id now
  (deactivated ++ [row], lock_id)

/-- The argument bundle of one sequential `lock_form_version` call. -/
structure LockCall where
  tax_year : Int
  form_version_id : String
  locked_by : String
  lock_reason : String
  lock_id : String
  now : String
deriving DecidableEq, Repr

/-- Applies a sequence of `lock_form_version` calls to a `form_locks`
table. -/
def applyLockCalls (calls : List LockCall) : List LockRow :=
  calls.foldl
    (fun s c =>
      (lock_form_version s c.tax_year c.form_version_id c.locked_by
        c.lock_reason c.lock_id c.now).1)
    []

/-! ## `app/form6765_calc.py` / `app/form6765_models.py`

Monetary values are integer cents.  `_money(x) = x.quantize(Decimal("0.01"))`
under Python's default decimal context rounds half-to-even; on a value of
`c` cents obtained by multiplying a 2-decimal amount by a rate `r`, the
quantized result is `roundHalfEven (c * r)`.  `prior_total / Decimal("6.0")`
is computed by Python at 28 significant digits and then quantized; for
18-digit inputs that double rounding agrees with rounding the exact
quotient (the exact quotient of cents by 6 is either a terminating decimal
or has fractional part in the sixths, never within 10⁻²⁶ of a half-cent),
so it is embedded as `roundHalfEven (c / 6)`. -/

/-- Round `num / den` (for `den > 0`) to the nearest integer, ties to even
(`decimal.ROUND_HALF_EVEN`, the default context rounding used by
`Decimal.quantize`).  `Int.fdiv` is floor division, so `r` is the
remainder in `[0, den)`.  Stated over an integer numerator and denominator
so that concrete instances reduce (the rational operations of the library
are irreducible). -/
def roundHalfEvenFrac (num den : Int) : Int :=
  let f := num.fdiv den
  let r := num - f * den
  if 2 * r < den then f
  else if den < 2 * r then f + 1
  else if f % 2 = 0 then f else f + 1

/-- `_money(cents * rate)` — multiply a cents amount by an exact rational
rate and quantize back to cents, half-to-even:
`cents * rate = (cents * rate.num) / rate.den` exactly. -/
def mulRate (cents : Int) (rate : ℚ) : Int :=
  roundHalfEvenFrac (cents * rate.num) (rate.den : Int)

/-- `CreditMethod` — Section A (REGULAR) vs Section B (ASC). -/
inductive CreditMethod where
  | REGULAR
  | ASC
deriving DecidableEq, Repr

/-- `Section280CChoice` — elect the reduced credit or not. -/
inductive Section280CChoice where
  | REDUCED
  | FULL
deriving DecidableEq, Repr

/-- `Form6765Header` — top-of-form taxpayer identifiers. -/
structure Form6765Header where
  tax_year : Int
  name_on_return : String
  identifying_number : String

/-- `Form6765Inputs` — monetary fields (`Money`, 2 decimal places, no sign
constraint) in cents; the float percentage fields as exact rationals. -/
structure Form6765Inputs where
  qre_wages : Int
  qre_supplies : Int
  qre_computers : Int
  qre_contract_research_gross : Int
  contract_applicable_pct : ℚ
  fixed_base_percentage : Option ℚ
  avg_annual_gross_receipts : Option Int
  prior_3_year_qre_total : Option Int
  energy_consortia_amount : Int
  basic_research_payments : Int
  qualified_org_base_period_amount : Int
  form_8932_overlap_wages_credit : Int
  pass_through_credit : Int
  is_qsb_payroll_election : Bool
  payroll_tax_credit_elected : Int
  general_business_credit_carryforward : Int
  credit_method : CreditMethod
  section_280c_choice : Section280CChoice

/-- `Form6765Lines` — every numeric line, monetary lines in cents. -/
structure Form6765Lines where
  line_1 : Int
  line_2 : Int
  line_3 : Int
  line_4 : Int
  line_5 : Int
  line_6 : Int
  line_7 : Int
  line_8 : Int
  line_9 : Int
  line_10_fixed_base_pct : Option ℚ
  line_11_avg_gross_receipts : Int
  line_12 : Int
  line_13 : Int
  line_14 : Int
  line_15 : Int
  line_16 : Int
  line_17 : Int
  line_17_280c_elected : Option Bool
  line_18 : Int
  line_19 : Int
  line_20 : Int
  line_21 : Int
  line_22 : Int
  line_23 : Int
  line_24 : Int
  line_25 : Int
  line_26 : Int
  line_27 : Int
  line_28 : Int
  line_29_prior_3_year_qre_total : Int
  line_30 : Int
  line_31 : Int
  line_32 : Int
  line_33 : Int
  line_34 : Int
  line_34_280c_elected : Option Bool
  line_35 : Int
  line_36 : Int
  line_37 : Int
  line_38 : Int
  line_39 : Int
  line_40 : Int
  line_41_qsb_election : Option Bool
  line_42 : Int
  line_43 : Int
  line_44 : Int

/-- `notes["qre"]` — the stringified QRE figures recorded in
`calculation_notes` (the `str(...)` serialization is injective on these
values, so the values themselves stand for their strings). -/
structure QreNotes where
  wages : Int
  supplies : Int
  computers : Int
  contract_gross : Int
  contract_pct : ℚ
  contract_qualified : Int

/-- `Form6765Provenance` — audit fields.  `reviewer_rollup` is an opaque
caller-supplied dict, modelled by its canonical serialization. -/
structure Form6765Provenance where
  eligibility_snapshot_id : String
  eligibility_snapshot_sha256 : String
  ruleset_version : String
  prompt_version : Option String
  model_name : Option String
  reviewer_rollup : String
  calculation_notes : QreNotes
  computed_at_utc : String

/-- `EligibilitySnapshot` — the frozen approved-projects dataclass passed to
`compute_form6765`. -/
structure EligibilitySnapshot where
  snapshot_id : String
  approved_project_ids : List String
  snapshot_sha256 : String

/-- `base_payload` — the dict hashed by `_sha256_dict`:
`{"header": ..., "inputs": ..., "lines": ..., "provenance": ...}`. -/
structure BasePayload where
  header : Form6765Header
  inputs : Form6765Inputs
  lines : Form6765Lines
  provenance : Form6765Provenance

/-- `Form6765Document` — the returned document.  `form_version_id` is
`f6765_{tax_year}_{form_sha[:12]}`, modelled as the pair of the tax year
and the (idealized) hash. -/
structure Form6765Document where
  header : Form6765Header
  inputs : Form6765Inputs
  lines : Form6765Lines
  provenance : Form6765Provenance
  form_version_id : Int × BasePayload
  form_version_sha256 : BasePayload

/-- `notes["qre"]` as recorded by `compute_form6765` while normalizing the
QREs. -/
def qreNotesOf (inputs : Form6765Inputs) : QreNotes :=
  { wages := inputs.qre_wages
    supplies := inputs.qre_supplies
    computers := inputs.qre_computers
    contract_gross := inputs.qre_contract_research_gross
    contract_pct := inputs.contract_applicable_pct
    contract_qualified :=
      mulRate inputs.qre_contract_research_gross
        inputs.contract_applicable_pct }

/-- The line-by-line arithmetic block of `compute_form6765` (the statements
that fill the `lines = Form6765Lines()` object). -/
def computeForm6765Lines (inputs : Form6765Inputs) : Form6765Lines :=
  -- Normalize QREs
  let wages := inputs.qre_wages
  let supplies := inputs.qre_supplies
  let computers := inputs.qre_computers
  let contracts_gross := inputs.qre_contract_research_gross
  let pct := inputs.contract_applicable_pct
  let contracts := mulRate contracts_gross pct
  -- Common lines for A/B (energy consortium + basic research)
  let energy := inputs.energy_consortia_amount
  let basic := inputs.basic_research_payments
  let base_period := inputs.qualified_org_base_period_amount
  -- Section A lines 1-4
  let line_1 := energy
  let line_2 := basic
  let line_3 := base_period
  let line_4 := max 0 (line_2 - line_3)
  -- Section B lines 18-23 mirror
  let line_18 := energy
  let line_19 := basic
  let line_20 := base_period
  let line_21 := max 0 (line_19 - line_20)
  let line_22 := line_18 + line_21
  let line_23 := mulRate line_22 (mkRat 20 100)
  -- Section A (Regular Credit), lines 5-9
  let line_5 := wages
  let line_6 := supplies
  let line_7 := computers
  let line_8 := contracts
  let line_9 := line_5 + line_6 + line_7 + line_8
  -- Lines 10-16 require fixed base % and avg receipts
  let line_10_fixed_base_pct := inputs.fixed_base_percentage
  let line_11 := (inputs.avg_annual_gross_receipts).getD 0
  let lines_12_15 : Int × Int × Int × Int :=
    match inputs.fixed_base_percentage, inputs.avg_annual_gross_receipts with
    | some pct10, some _ =>
        let l12 := mulRate line_11 pct10
        let l13 := max 0 (line_9 - l12)
        let l14 := mulRate line_9 (mkRat 50 100)
        (l12, l13, l14, min l13 l14)
    | _, _ =>
        -- If not provided, keep dependent lines at 0
        (0, 0, 0, 0)
  let line_12 := lines_12_15.1
  let line_13 := lines_12_15.2.1
  let line_14 := lines_12_15.2.2.1
  let line_15 := lines_12_15.2.2.2
  let line_16 := line_1 + line_4 + line_15
  -- Line 17 (280C reduced credit election impacts rate)
  let elect_reduced : Bool := inputs.section_280c_choice = Section280CChoice.REDUCED
  let rate : ℚ := if elect_reduced then mkRat 158 1000 else mkRat 20 100
  let line_17 := mulRate line_16 rate
  -- Section B (ASC), lines 24-28
  let line_24 := wages
  let line_25 := supplies
  let line_26 := computers
  let line_27 := contracts
  let line_28 := line_24 + line_25 + line_26 + line_27
  let prior_total := (inputs.prior_3_year_qre_total).getD 0
  let line_29 := prior_total
  let ascHistory :=
    inputs.prior_3_year_qre_total.isSome ∧ 0 < prior_total
  let line_30 :=
    if ascHistory then roundHalfEvenFrac prior_total 6 else 0
  let line_31 := if ascHistory then max 0 (line_28 - line_30) else 0
  let line_32 :=
    if ascHistory then mulRate line_31 (mkRat 14 100)
    else mulRate line_28 (mkRat 6 100)
  let line_33 := line_23 + line_32
  let line_34 := if elect_reduced then mulRate line_33 (mkRat 79 100) else line_33
  -- Section C (Current Year Credit)
  let line_35 := inputs.form_8932_overlap_wages_credit
  let chosen_credit :=
    if inputs.credit_method = CreditMethod.REGULAR then line_17 else line_34
  let line_36 := max 0 (chosen_credit - line_35)
  let line_37 := inputs.pass_through_credit
  let line_38 := line_36 + line_37
  -- Lines 39-40 (only for estates/trusts; keep 0 unless explicitly set)
  let line_39 : Int := 0
  let line_40 := line_38 - line_39
  -- Section D (Payroll Tax Election)
  let line_42 :=
    if inputs.is_qsb_payroll_election then
      min inputs.payroll_tax_credit_elected 25000000
    else 0
  let line_43 :=
    if inputs.is_qsb_payroll_election then
      inputs.general_business_credit_carryforward
    else 0
  let line_44 :=
    if inputs.is_qsb_payroll_election then min line_36 (min line_42 line_43)
    else 0
  { line_1 := line_1, line_2 := line_2, line_3 := line_3, line_4 := line_4
    line_5 := line_5, line_6 := line_6, line_7 := line_7, line_8 := line_8
    line_9 := line_9
    line_10_fixed_base_pct := line_10_fixed_base_pct
    line_11_avg_gross_receipts := line_11
    line_12 := line_12, line_13 := line_13, line_14 := line_14
    line_15 := line_15, line_16 := line_16, line_17 := line_17
    line_17_280c_elected := some elect_reduced
    line_18 := line_18, line_19 := line_19, line_20 := line_20
    line_21 := line_21, line_22 := line_22, line_23 := line_23
    line_24 := line_24, line_25 := line_25, line_26 := line_26
    line_27 := line_27, line_28 := line_28
    line_29_prior_3_year_qre_total := line_29
    line_30 := line_30, line_31 := line_31, line_32 := line_32
    line_33 := line_33, line_34 := line_34
    line_34_280c_elected := some elect_reduced
    line_35 := line_35, line_36 := line_36, line_37 := line_37
    line_38 := line_38, line_39 := line_39, line_40 := line_40
    line_41_qsb_election := some inputs.is_qsb_payroll_election
    line_42 := line_42, line_43 := line_43, line_44 := line_44 }

/-- `compute_form6765` — computes the notes and lines, runs the validation
(the `ValueError` raised when the REGULAR method lacks its prerequisite
fields is the `Except.error` case), and assembles the hashed payload and
document.  `datetime.now(timezone.utc)` is the explicit `computed_at`
parameter. -/
def compute_form6765 (header : Form6765Header) (inputs : Form6765Inputs)
    (snapshot : EligibilitySnapshot) (ruleset_version : String)
    (prompt_version : Option String) (model_name : Option String)
    (reviewer_rollup : String) (computed_at : String) :
    Except String Form6765Document :=
  let notes := qreNotesOf inputs
  let lines := computeForm6765Lines inputs
  -- Validations (hard fail for obviously missing enterprise inputs)
  if inputs.credit_method = CreditMethod.REGULAR
      ∧ (inputs.fixed_base_percentage = none
        ∨ inputs.avg_annual_gross_receipts = none) then
    .error "REGULAR credit selected but fixed_base_percentage and avg_annual_gross_receipts are required"
  else
    let prov : Form6765Provenance :=
      { eligibility_snapshot_id := snapshot.snapshot_id
        eligibility_snapshot_sha256 := snapshot.snapshot_sha256
        ruleset_version := ruleset_version
        prompt_version := prompt_version
        model_name := model_name
        reviewer_rollup := reviewer_rollup
        calculation_notes := notes
        computed_at_utc := computed_at }
    let base_payload : BasePayload :=
      { header := header, inputs := inputs, lines := lines
        provenance := prov }
    let form_sha := sha256Of base_payload
    let form_version_id := (header.tax_year, form_sha)
    .ok
      { header := header
        inputs := inputs
        lines := lines
        provenance := prov
        form_version_id := form_version_id
        form_version_sha256 := form_sha }

/-! ## Concrete fixtures used by the witnesses and counterexamples -/

/-- An active 2024 lock installed through a normal, review-backed
generation. -/
def priorLock : LockRow :=
  { lock_id := "lock_2024_aaaaaaaa"
    tax_year := 2024
    active_form_version_id := "f6765_2024_000000000001"
    locked_at_utc := "2024-01-01T00:00:00+00:00"
    locked_by := "alice"
    lock_reason := "Initial form generation for p1"
    is_active := true }

/-- The lock row produced by a replacement `lock_form_version` call that
supplies an empty `lock_reason` and no override credentials. -/
def replacementLock : LockRow :=
  mkLockRow 2024 "f6765_2024_000000000002" "mallory" ""
    "lock_2024_bbbbbbbb" "2024-02-01T00:00:00+00:00"

/-- A stored mirror-table review action. -/
def mirrorApproved : ReviewActionRow :=
  { review_id := "r1"
    project_id := "p1"
    status := "APPROVED"
    reviewer_name := "Alice"
    reviewer_role := "REVIEWER"
    reason := "Meets all four criteria."
    created_at_utc := "2024-01-01T00:00:00+00:00"
    source_confidence := some (mkRat 1 2)
    source_trace_path := none
    review_trace_path := none }

/-- A second mirror write reusing the same `review_id` with different
content. -/
def mirrorConflicting : ReviewActionRow :=
  { mirrorApproved with
      status := "REJECTED"
      reviewer_name := "Mallory"
      created_at_utc := "2024-01-02T00:00:00+00:00" }

/-- A stored primary-ledger review record. -/
def primaryApproved : ReviewRow :=
  { review_id := "r1"
    project_id := "p1"
    status := ReviewStatus.APPROVED
    reviewer_name := "Alice"
    reviewer_role := ReviewerRole.REVIEWER
    reason := "Meets all four criteria."
    timestamp := 1
    source_decision := some true
    source_confidence := some (mkRat 1 2)
    source_trace_path := none
    review_trace_path := none }

/-- A second primary-ledger append reusing the same `review_id`. -/
def primaryConflicting : ReviewRow :=
  { primaryApproved with
      status := ReviewStatus.REJECTED
      reviewer_name := "Mallory"
      timestamp := 2 }

/-- A concrete Form 6765 header. -/
def sampleHeader : Form6765Header :=
  { tax_year := 2024
    name_on_return := "Sample Taxpayer Inc."
    identifying_number := "00-0000000" }

/-- A concrete frozen eligibility snapshot argument. -/
def sampleSnapshot : EligibilitySnapshot :=
  { snapshot_id := "snap_2024_000000000000"
    approved_project_ids := ["p1"]
    snapshot_sha256 := "0000000000000000" }

/-- ASC-method inputs with every monetary field zero (the model defaults:
65% contract percentage, full 280C, no REGULAR base data, no prior-3-year
total). -/
def baseInputs : Form6765Inputs :=
  { qre_wages := 0
    qre_supplies := 0
    qre_computers := 0
    qre_contract_research_gross := 0
    contract_applicable_pct := mkRat 65 100
    fixed_base_percentage := none
    avg_annual_gross_receipts := none
    prior_3_year_qre_total := none
    energy_consortia_amount := 0
    basic_research_payments := 0
    qualified_org_base_period_amount := 0
    form_8932_overlap_wages_credit := 0
    pass_through_credit := 0
    is_qsb_payroll_election := false
    payroll_tax_credit_elected := 0
    general_business_credit_carryforward := 0
    credit_method := CreditMethod.ASC
    section_280c_choice := Section280CChoice.FULL }

/-- The §8 end-to-end scenario inputs: QRE wages 100000.00 (in cents), all
other QREs zero, ASC, no prior-3-year data. -/
def ascWagesInputs : Form6765Inputs :=
  { baseInputs with qre_wages := 10000000 }

/-- ASC inputs whose only nonzero monetary field is a negative
`pass_through_credit` of −1.00 (the `Money` type carries no sign
constraint). -/
def negPassThroughInputs : Form6765Inputs :=
  { baseInputs with pass_through_credit := -100 }

end TaxCredit

namespace TaxCredit

open ReviewStatus ReviewerRole

/-- C5: `validate_transition(current, new, role)` accepts exactly the edges
of `ALLOWED_TRANSITIONS` (a `None`/unreviewed current status standing for
`MANUAL_REVIEW`) whose target passes the role gate: `APPROVED`/`REJECTED`
need rank ≥ 1, `OVERRIDDEN` needs rank ≥ 2.  Consequently every transition
out of `OVERRIDDEN` is rejected, an `ANALYST` can never enter `APPROVED`,
and a `REVIEWER` can never enter `OVERRIDDEN`. -/
theorem validate_transition_characterization :
    (∀ (c : Option ReviewStatus) (n : ReviewStatus) (r : ReviewerRole),
        validate_transition c n r = true ↔
          (n ∈ ALLOWED_TRANSITIONS (c.getD ReviewStatus.MANUAL_REVIEW)
            ∧ (n = ReviewStatus.APPROVED ∨ n = ReviewStatus.REJECTED →
                1 ≤ ROLE_HIERARCHY r)
            ∧ (n = ReviewStatus.OVERRIDDEN → 2 ≤ ROLE_HIERARCHY r)))
    ∧ (∀ (n : ReviewStatus) (r : ReviewerRole),
        validate_transition (some ReviewStatus.OVERRIDDEN) n r = false)
    ∧ (∀ (c : Option ReviewStatus),
        validate_transition c ReviewStatus.APPROVED ReviewerRole.ANALYST
          = false)
    ∧ (∀ (c : Option ReviewStatus),
        validate_transition c ReviewStatus.OVERRIDDEN ReviewerRole.REVIEWER
          = false) := by
  refine ⟨?_, ?_, ?_, ?_⟩ <;> decide

/-- C2 (failing input): `lock_form_version` — the code path that installs a
replacement lock — has no override gating at all: it takes no
`override_reason` or `actor_role` parameter and has no failure path.
Evaluated on a store holding an active 2024 lock, a call that supplies an
empty reason and no credentials nevertheless succeeds, deactivates the
existing active lock and installs the replacement as the active lock,
contrary to the required `LockConflictError`. -/
theorem lock_form_version_replaces_without_override :
    lock_form_version [priorLock] 2024 "f6765_2024_000000000002" "mallory"
        "" "lock_2024_bbbbbbbb" "2024-02-01T00:00:00+00:00"
      = ([{ priorLock with is_active := false }, replacementLock],
          "lock_2024_bbbbbbbb")
    ∧ get_active_form_lock
        (lock_form_version [priorLock] 2024 "f6765_2024_000000000002"
          "mallory" "" "lock_2024_bbbbbbbb" "2024-02-01T00:00:00+00:00").1
        2024
      = some replacementLock
    ∧ priorLock ∉
        (lock_form_version [priorLock] 2024 "f6765_2024_000000000002"
          "mallory" "" "lock_2024_bbbbbbbb"
          "2024-02-01T00:00:00+00:00").1 := by
  refine ⟨by decide, by decide, by decide⟩

/-- C4 (failing input): duplicate `review_id` appends.  The primary ledger
(`ReviewStorage.create_review`, a plain `INSERT` against the primary key)
does fail with a conflict error and leaves the stored row unchanged — but
the form-lock mirror store (`record_review_action`, `INSERT OR REPLACE`)
silently overwrites: after writing a conflicting action with the same
`review_id`, the originally stored mirror row is gone and the new row has
taken its place. -/
theorem record_review_action_overwrites_duplicate :
    create_review [primaryApproved] primaryConflicting
      = .error "UNIQUE constraint failed: project_reviews.review_id"
    ∧ record_review_action [mirrorApproved] mirrorConflicting
        = [mirrorConflicting]
    ∧ mirrorApproved ∉
        record_review_action [mirrorApproved] mirrorConflicting := by
  refine ⟨rfl, by decide, by decide⟩

/-- On success, the document returned by `compute_form6765` carries exactly
the lines computed by the arithmetic block. -/
theorem compute_ok_lines {header : Form6765Header} {inputs : Form6765Inputs}
    {snapshot : EligibilitySnapshot} {rv : String} {pv mn : Option String}
    {rr t : String} {doc : Form6765Document}
    (h : compute_form6765 header inputs snapshot rv pv mn rr t
      = Except.ok doc) :
    doc.lines = computeForm6765Lines inputs := by
  simp only [compute_form6765] at h
  split at h
  · exact absurd h (by simp)
  · injection h with h
    subst h
    rfl

/-- When no positive prior-3-year QRE total is supplied, the ASC block
keeps lines 30 and 31 at 0 and takes 6% of line 28. -/
theorem computeForm6765Lines_no_history (inputs : Form6765Inputs)
    (h : inputs.prior_3_year_qre_total = none
      ∨ (inputs.prior_3_year_qre_total).getD 0 ≤ 0) :
    (computeForm6765Lines inputs).line_30 = 0
    ∧ (computeForm6765Lines inputs).line_31 = 0
    ∧ (computeForm6765Lines inputs).line_32
        = mulRate (computeForm6765Lines inputs).line_28 (mkRat 6 100) := by
  have hcond : ¬(inputs.prior_3_year_qre_total.isSome = true
      ∧ 0 < (inputs.prior_3_year_qre_total).getD 0) := by
    rcases h with h | h
    · simp [h]
    · rintro ⟨-, h2⟩
      omega
  simp [computeForm6765Lines, if_neg hcond]

/-- When a strictly positive prior-3-year QRE total is supplied, the ASC
block divides it by 6 into line 30 and takes 14% of line 31. -/
theorem computeForm6765Lines_with_history (inputs : Form6765Inputs) (p : Int)
    (hp : inputs.prior_3_year_qre_total = some p) (hpos : 0 < p) :
    (computeForm6765Lines inputs).line_30
        = roundHalfEvenFrac p 6
    ∧ (computeForm6765Lines inputs).line_31
        = max 0 ((computeForm6765Lines inputs).line_28
            - (computeForm6765Lines inputs).line_30)
    ∧ (computeForm6765Lines inputs).line_32
        = mulRate (computeForm6765Lines inputs).line_31 (mkRat 14 100) := by
  simp [computeForm6765Lines, hp, hpos]

/-- Structure of the Section C lines: line 36 is clamped at 0, line 39 is
fixed at 0, line 40 equals line 38, and line 38 is line 36 plus the
pass-through credit. -/
theorem computeForm6765Lines_sectionC (inputs : Form6765Inputs) :
    0 ≤ (computeForm6765Lines inputs).line_36
    ∧ (computeForm6765Lines inputs).line_39 = 0
    ∧ (computeForm6765Lines inputs).line_40
        = (computeForm6765Lines inputs).line_38
    ∧ (computeForm6765Lines inputs).line_38
        = (computeForm6765Lines inputs).line_36
          + inputs.pass_through_credit := by
  simp only [computeForm6765Lines]
  refine ⟨le_max_left _ _, trivial, Int.sub_zero _, trivial⟩

/-- C1 (failing input): the hashed payload of `compute_form6765` includes
`provenance.computed_at_utc`.  Two calls with identical header, inputs,
snapshot and ruleset_version but different wall-clock readings produce
identical line values yet hashed payloads differing exactly in the
embedded timestamp, hence different `form_version_sha256`. -/
theorem compute_form6765_hash_includes_wall_clock :
    ((compute_form6765 sampleHeader ascWagesInputs sampleSnapshot "2024.1"
        none none "" "2024-03-01T00:00:00+00:00").map
        (fun d => d.form_version_sha256.provenance.computed_at_utc)
      = Except.ok "2024-03-01T00:00:00+00:00")
    ∧ ((compute_form6765 sampleHeader ascWagesInputs sampleSnapshot "2024.1"
        none none "" "2024-03-01T00:00:01+00:00").map
        (fun d => d.form_version_sha256.provenance.computed_at_utc)
      = Except.ok "2024-03-01T00:00:01+00:00")
    ∧ ((compute_form6765 sampleHeader ascWagesInputs sampleSnapshot "2024.1"
        none none "" "2024-03-01T00:00:00+00:00").map (fun d => d.lines)
      = (compute_form6765 sampleHeader ascWagesInputs sampleSnapshot "2024.1"
        none none "" "2024-03-01T00:00:01+00:00").map (fun d => d.lines))
    ∧ ((compute_form6765 sampleHeader ascWagesInputs sampleSnapshot "2024.1"
        none none "" "2024-03-01T00:00:00+00:00").map
        (fun d => d.form_version_sha256)
      ≠ (compute_form6765 sampleHeader ascWagesInputs sampleSnapshot "2024.1"
        none none "" "2024-03-01T00:00:01+00:00").map
        (fun d => d.form_version_sha256)) := by
  refine ⟨rfl, rfl, rfl, ?_⟩
  intro hcontra
  have h2 := congrArg
    (Except.map (fun p : BasePayload => p.provenance.computed_at_utc)) hcontra
  have h3 : (Except.ok "2024-03-01T00:00:00+00:00" : Except String String)
      = Except.ok "2024-03-01T00:00:01+00:00" := h2
  exact absurd (Except.ok.inj h3) (by decide)

/-- C9: with QRE wages 100000.00, all other QREs 0, the ASC method and no
prior-3-year total, line 28 is 100000.00, lines 30 and 31 are 0.00 and
line 32 is 6% of line 28 = 6000.00 (amounts in cents, quantized
half-to-even at each monetary line); in general the 14%-of-(line 28 −
line 30) branch applies exactly when `prior_3_year_qre_total` is present
and strictly positive, and otherwise lines 30 and 31 stay 0 and line 32 is
6% of line 28. -/
theorem compute_form6765_asc_basic :
    ((compute_form6765 sampleHeader ascWagesInputs sampleSnapshot "2024.1"
        none none "" "2024-03-01T00:00:00+00:00").map
        (fun d => (d.lines.line_28, d.lines.line_30, d.lines.line_31,
          d.lines.line_32))
      = Except.ok (10000000, 0, 0, 600000))
    ∧ (∀ (header : Form6765Header) (inputs : Form6765Inputs)
        (snapshot : EligibilitySnapshot) (rv : String) (pv mn : Option String)
        (rr t : String) (doc : Form6765Document),
        compute_form6765 header inputs snapshot rv pv mn rr t
          = Except.ok doc →
          ((inputs.prior_3_year_qre_total = none
              ∨ (inputs.prior_3_year_qre_total).getD 0 ≤ 0) →
            doc.lines.line_30 = 0 ∧ doc.lines.line_31 = 0
              ∧ doc.lines.line_32 = mulRate doc.lines.line_28 (mkRat 6 100))
          ∧ (∀ p : Int, inputs.prior_3_year_qre_total = some p → 0 < p →
              doc.lines.line_30 = roundHalfEvenFrac p 6
              ∧ doc.lines.line_31
                  = max 0 (doc.lines.line_28 - doc.lines.line_30)
              ∧ doc.lines.line_32
                  = mulRate doc.lines.line_31 (mkRat 14 100))) := by
  constructor
  · rfl
  · intro header inputs snapshot rv pv mn rr t doc h
    have hl := compute_ok_lines h
    constructor
    · intro hno
      rw [hl]
      exact computeForm6765Lines_no_history inputs hno
    · intro p hp hpos
      rw [hl]
      exact computeForm6765Lines_with_history inputs p hp hpos

/-- Witness for C9: at the concrete scenario input (no prior-3-year total),
the general branch characterization yields lines 30 and 31 = 0. -/
theorem compute_form6765_asc_basic_witness :
    (compute_form6765 sampleHeader ascWagesInputs sampleSnapshot "2024.1"
        none none "" "2024-03-01T00:00:00+00:00").map
        (fun d => (d.lines.line_30, d.lines.line_31))
      = Except.ok (0, 0) := by
  obtain ⟨d, hd⟩ : ∃ d, compute_form6765 sampleHeader ascWagesInputs
      sampleSnapshot "2024.1" none none "" "2024-03-01T00:00:00+00:00"
      = Except.ok d := ⟨_, rfl⟩
  have h := (compute_form6765_asc_basic.2 sampleHeader ascWagesInputs
    sampleSnapshot "2024.1" none none "" "2024-03-01T00:00:00+00:00" d hd).1
    (Or.inl rfl)
  rw [hd]
  simp [Except.map, h.1, h.2.1]

/-- C10 (counterexample): with a negative `pass_through_credit` of −1.00
(`Money` carries no sign constraint) the computation succeeds with
line 36 = 0 but line 38 = line 40 = −1.00 < 0, refuting the claim that
lines 38 and 40 are never negative. -/
theorem form6765_negative_pass_through :
    ((compute_form6765 sampleHeader negPassThroughInputs sampleSnapshot
        "2024.1" none none "" "2024-03-01T00:00:00+00:00").map
        (fun d => (d.lines.line_36, d.lines.line_38, d.lines.line_40))
      = Except.ok (0, -100, -100))
    ∧ ((compute_form6765 sampleHeader negPassThroughInputs sampleSnapshot
        "2024.1" none none "" "2024-03-01T00:00:00+00:00").map
        (fun d => decide (0 ≤ d.lines.line_38 ∧ 0 ≤ d.lines.line_40))
      = Except.ok false) := by
  exact ⟨rfl, rfl⟩

/-- C10 (amended): on every successful run, line 36 = max(0, credit −
line 35) is nonnegative, line 39 is fixed at 0 and line 40 = line 38 =
line 36 + pass_through_credit; hence whenever `pass_through_credit` is
nonnegative, lines 36, 38 and 40 are all nonnegative — even when the Form
8932 overlap wages credit exceeds the chosen method's credit. -/
theorem form6765_sectionC_nonnegative :
    ∀ (header : Form6765Header) (inputs : Form6765Inputs)
      (snapshot : EligibilitySnapshot) (rv : String) (pv mn : Option String)
      (rr t : String) (doc : Form6765Document),
      compute_form6765 header inputs snapshot rv pv mn rr t = Except.ok doc →
        0 ≤ doc.lines.line_36
        ∧ doc.lines.line_39 = 0
        ∧ doc.lines.line_40 = doc.lines.line_38
        ∧ doc.lines.line_38 = doc.lines.line_36 + inputs.pass_through_credit
        ∧ (0 ≤ inputs.pass_through_credit →
            0 ≤ doc.lines.line_38 ∧ 0 ≤ doc.lines.line_40) := by
  intro header inputs snapshot rv pv mn rr t doc h
  rw [compute_ok_lines h]
  obtain ⟨h36, h39, h40, h38⟩ := computeForm6765Lines_sectionC inputs
  refine ⟨h36, h39, h40, h38, fun hp => ⟨?_, ?_⟩⟩
  · omega
  · omega

/-- Witness for C10: at the all-zero ASC input (nonnegative pass-through),
the amended theorem yields nonnegative lines 38 and 40. -/
theorem form6765_sectionC_nonnegative_witness :
    (compute_form6765 sampleHeader baseInputs sampleSnapshot "2024.1" none
        none "" "2024-03-01T00:00:00+00:00").map
        (fun d => decide (0 ≤ d.lines.line_38 ∧ 0 ≤ d.lines.line_40))
      = Except.ok true := by
  obtain ⟨d, hd⟩ : ∃ d, compute_form6765 sampleHeader baseInputs
      sampleSnapshot "2024.1" none none "" "2024-03-01T00:00:00+00:00"
      = Except.ok d := ⟨_, rfl⟩
  have h := form6765_sectionC_nonnegative sampleHeader baseInputs
    sampleSnapshot "2024.1" none none "" "2024-03-01T00:00:00+00:00" d hd
  have h3840 := h.2.2.2.2 (by decide)
  rw [hd]
  simp [Except.map, h3840.1, h3840.2]

/-- C8: a submission targeting `REJECTED` or `OVERRIDDEN` with a reason
shorter than 20 characters always fails with no record appended; with a
reason of at least 20 characters — or targeting any other status,
regardless of reason length — a submission whose transition and role are
valid (and whose generated `review_id` is fresh) appends exactly the new
record. -/
theorem validate_and_create_review_reason_floor :
    ∀ (store : List ReviewRow) (pid : String) (ns : ReviewStatus)
      (name : String) (role : ReviewerRole) (reason : String)
      (sd : Option Bool) (sc : Option ℚ) (stp rtp : Option String)
      (rid : String) (ts : Int),
      ((ns = ReviewStatus.REJECTED ∨ ns = ReviewStatus.OVERRIDDEN) →
        reason.length < 20 →
        (validate_and_create_review store pid ns name role reason sd sc stp
          rtp rid ts).isOk = false)
      ∧ (validate_transition
            (some (get_current_review_state store pid).current_status) ns
            role = true →
          (20 ≤ reason.length
            ∨ ¬(ns = ReviewStatus.REJECTED ∨ ns = ReviewStatus.OVERRIDDEN)) →
          (∀ r ∈ store, r.review_id ≠ rid) →
          validate_and_create_review store pid ns name role reason sd sc stp
            rtp rid ts
            = Except.ok
                (store ++ [mkReviewRecord pid ns name role reason sd sc stp
                  rtp rid ts],
                  mkReviewRecord pid ns name role reason sd sc stp rtp rid
                    ts)) := by
  intro store pid ns name role reason sd sc stp rtp rid ts
  constructor
  · intro hns hlen
    by_cases hv : validate_transition
        (some (get_current_review_state store pid).current_status) ns role
    · rcases hns with h | h <;> subst h <;>
        simp [validate_and_create_review, hv, hlen, Except.isOk, Except.toBool]
    · simp [validate_and_create_review, hv, Except.isOk, Except.toBool]
  · intro hv hok hfresh
    have hfloor : ¬((ns = ReviewStatus.REJECTED
        ∨ ns = ReviewStatus.OVERRIDDEN) ∧ reason.length < 20) := by
      rcases hok with h | h
      · rintro ⟨-, h2⟩
        omega
      · rintro ⟨h1, -⟩
        exact h h1
    have hany : store.any
        (fun r => r.review_id
          = (mkReviewRecord pid ns name role reason sd sc stp rtp rid
              ts).review_id) = false := by
      simp only [List.any_eq_false, decide_eq_true_eq]
      intro r hr
      exact hfresh r hr
    simp [validate_and_create_review, hv, hfloor, create_review, hany,
      Except.bind]
    rfl

/-- Witness for C8: on an empty ledger, a `DIRECTOR` rejecting with a
19-character reason fails, and rejecting with an exactly-20-character
reason appends the record. -/
theorem validate_and_create_review_reason_floor_witness :
    (validate_and_create_review [] "p1" ReviewStatus.REJECTED "Dana"
        ReviewerRole.DIRECTOR "needs more evidence" none none none none
        "rid-1" 1).isOk = false
    ∧ validate_and_create_review [] "p1" ReviewStatus.REJECTED "Dana"
        ReviewerRole.DIRECTOR "insufficient detail." none none none none
        "rid-1" 1
      = Except.ok
          ([mkReviewRecord "p1" ReviewStatus.REJECTED "Dana"
            ReviewerRole.DIRECTOR "insufficient detail." none none none
            none "rid-1" 1],
          mkReviewRecord "p1" ReviewStatus.REJECTED "Dana"
            ReviewerRole.DIRECTOR "insufficient detail." none none none
            none "rid-1" 1) := by
  constructor
  · exact (validate_and_create_review_reason_floor [] "p1"
      ReviewStatus.REJECTED "Dana" ReviewerRole.DIRECTOR
      "needs more evidence" none none none none "rid-1" 1).1 (Or.inl rfl)
      (by decide)
  · have h := (validate_and_create_review_reason_floor [] "p1"
      ReviewStatus.REJECTED "Dana" ReviewerRole.DIRECTOR
      "insufficient detail." none none none none "rid-1" 1).2 (by decide)
      (Or.inl (by decide)) (by intro r hr; cases hr)
    simpa using h

/-- The deactivating `UPDATE` clears every active row of its year and
leaves the active rows of every other year unchanged. -/
theorem activeLocks_map_deactivateYear (ty y : Int) (s : List LockRow) :
    activeLocks (s.map (deactivateYear ty)) y
      = if y = ty then [] else activeLocks s y := by
  induction s with
  | nil => simp [activeLocks]
  | cons r s ih =>
    by_cases hy : y = ty <;> by_cases hr1 : r.tax_year = ty <;>
      by_cases hr3 : r.tax_year = y <;> cases hr2 : r.is_active <;>
      simp_all [activeLocks, deactivateYear, List.filter_cons]

/-- One `lock_form_version` call leaves exactly its fresh row active for
its tax year and does not change the active rows of other years. -/
theorem activeLocks_lock_form_version (s : List LockRow) (ty : Int)
    (fv lb reason lid now : String) (y : Int) :
    activeLocks (lock_form_version s ty fv lb reason lid now).1 y
      = if y = ty then [mkLockRow ty fv lb reason lid now]
        else activeLocks s y := by
  have hmap := activeLocks_map_deactivateYear ty y s
  simp only [lock_form_version, activeLocks, List.filter_append] at hmap ⊢
  rw [hmap]
  by_cases hy : y = ty
  · subst hy
    simp [mkLockRow]
  · have hne : ¬(ty = y) := fun h => hy h.symm
    simp [hy, hne, mkLockRow]

/-- Sequentially applying `lock_form_version` calls preserves the
at-most-one-active-lock-per-year bound. -/
theorem activeLocks_foldl_le (calls : List LockCall) :
    ∀ (s : List LockRow), (∀ y, (activeLocks s y).length ≤ 1) →
      ∀ y,
        (activeLocks
          (calls.foldl
            (fun s c =>
              (lock_form_version s c.tax_year c.form_version_id c.locked_by
                c.lock_reason c.lock_id c.now).1)
            s) y).length ≤ 1 := by
  induction calls with
  | nil =>
    intro s hs y
    exact hs y
  | cons c cs ih =>
    intro s hs y
    rw [List.foldl_cons]
    apply ih
    intro y'
    rw [activeLocks_lock_form_version]
    split
    · simp
    · exact hs y'

/-- C3: starting from an empty `form_locks` table, after any sequence of
sequential `lock_form_version` calls at most one row per tax year has
`is_active=1` (each call first deactivates the year's active rows), and
`get_active_form_lock` returns exactly that single active row, or `None`
when the year has no active row. -/
theorem form_lock_single_active_invariant :
    ∀ (calls : List LockCall) (y : Int),
      (activeLocks (applyLockCalls calls) y).length ≤ 1
      ∧ get_active_form_lock (applyLockCalls calls) y
          = (activeLocks (applyLockCalls calls) y).head? := by
  intro calls y
  have hlen : (activeLocks (applyLockCalls calls) y).length ≤ 1 := by
    unfold applyLockCalls
    refine activeLocks_foldl_le calls [] ?_ y
    intro y'
    simp [activeLocks]
  refine ⟨hlen, ?_⟩
  have hcases : activeLocks (applyLockCalls calls) y = []
      ∨ ∃ a, activeLocks (applyLockCalls calls) y = [a] := by
    cases hx : activeLocks (applyLockCalls calls) y with
    | nil => exact Or.inl rfl
    | cons a l =>
      cases l with
      | nil => exact Or.inr ⟨a, rfl⟩
      | cons b t =>
        rw [hx] at hlen
        simp at hlen
  unfold get_active_form_lock
  rcases hcases with h | ⟨a, h⟩
  · rw [h]
    simp [List.argmax_nil]
  · rw [h, List.argmax_singleton]
    rfl

/-- Python `sorted(set(...))` depends only on the set of elements. -/
theorem sortedSet_eq_of_toFinset_eq (l1 l2 : List String)
    (h : l1.toFinset = l2.toFinset) : sortedSet l1 = sortedSet l2 := by
  unfold sortedSet
  rw [h]

/-- After an `INSERT OR REPLACE` keyed by `snapshot_id`, the rows carrying
the inserted key are exactly the new row. -/
theorem snapshot_filter_insertOrReplace (store : List SnapshotRow)
    (row : SnapshotRow) (key : Int × SnapPayload)
    (hk : row.snapshot_id = key) :
    (store.filter (fun r => r.snapshot_id ≠ key)
        ++ [row]).filter (fun r => r.snapshot_id = key)
      = [row] := by
  rw [List.filter_append, List.filter_filter]
  have h1 : (store.filter fun a =>
      decide (a.snapshot_id = key) && decide (a.snapshot_id ≠ key)) = [] := by
    rw [List.filter_eq_nil_iff]
    intro a ha
    by_cases h : a.snapshot_id = key <;> simp [h]
  rw [h1]
  simp [hk]

/-- C6: for one tax year, two explicit approved-id lists denoting the same
set produce the same `snapshot_sha256`, derived `snapshot_id` and kept-id
list (the hash is invariant under permutation and duplication of the
input); and a repeated call with identical inputs replaces the row keyed
by that `snapshot_id` — afterwards exactly one such row exists. -/
theorem create_eligibility_snapshot_idempotent :
    (∀ (rs : List ReviewActionRow) (store : List SnapshotRow) (ty : Int)
        (pids : List String) (cb : String) (l1 l2 : List String)
        (t1 t2 : String),
        l1.toFinset = l2.toFinset →
          (create_eligibility_snapshot rs store ty pids cb none (some l1)
              t1).2
            = (create_eligibility_snapshot rs store ty pids cb none (some l2)
              t2).2)
    ∧ (∀ (rs : List ReviewActionRow) (store : List SnapshotRow) (ty : Int)
        (pids : List String) (cb : String) (l : List String) (t1 t2 : String),
        (((create_eligibility_snapshot rs
              (create_eligibility_snapshot rs store ty pids cb none (some l)
                t1).1
              ty pids cb none (some l) t2).1).filter
            (fun r => r.snapshot_id
              = ((create_eligibility_snapshot rs store ty pids cb none
                  (some l) t1).2).1)).length = 1) := by
  constructor
  · intro rs store ty pids cb l1 l2 t1 t2 h
    simp only [create_eligibility_snapshot,
      sortedSet_eq_of_toFinset_eq l1 l2 h]
  · intro rs store ty pids cb l t1 t2
    simp only [create_eligibility_snapshot, Option.getD_none]
    rw [snapshot_filter_insertOrReplace]
    · rfl
    · rfl

/-- Witness for C6: the lists `["p2", "p1", "p1"]` and `["p1", "p2"]`
denote the same set, and the snapshot calls on them return the same
`(snapshot_id, snapshot_sha256, kept_ids)` triple. -/
theorem create_eligibility_snapshot_idempotent_witness :
    (["p2", "p1", "p1"] : List String).toFinset
        = (["p1", "p2"] : List String).toFinset
    ∧ (create_eligibility_snapshot [] [] 2024 [] "alice" none
          (some ["p2", "p1", "p1"]) "2024-01-01T00:00:00+00:00").2
        = (create_eligibility_snapshot [] [] 2024 [] "alice" none
          (some ["p1", "p2"]) "2024-01-02T00:00:00+00:00").2 := by
  constructor
  · decide
  · exact create_eligibility_snapshot_idempotent.1 [] [] 2024 [] "alice"
      ["p2", "p1", "p1"] ["p1", "p2"] "2024-01-01T00:00:00+00:00"
      "2024-01-02T00:00:00+00:00" (by decide)

/-- Witness for C5: an `ADMIN` cannot leave the terminal `OVERRIDDEN`
state even to `APPROVED`. -/
theorem validate_transition_characterization_witness :
    validate_transition (some ReviewStatus.OVERRIDDEN) ReviewStatus.APPROVED
      ReviewerRole.ADMIN = false :=
  validate_transition_characterization.2.1 ReviewStatus.APPROVED
    ReviewerRole.ADMIN

/-- Witness for C3: after two concrete sequential lock calls for 2024, at
most one active lock exists and `get_active_form_lock` returns it. -/
theorem form_lock_single_active_invariant_witness :
    (activeLocks
        (applyLockCalls
          [⟨2024, "f1", "alice", "initial lock", "lock_2024_aaaaaaaa",
            "2024-01-01T00:00:00+00:00"⟩,
          ⟨2024, "f2", "bob", "regenerated", "lock_2024_bbbbbbbb",
            "2024-02-01T00:00:00+00:00"⟩]) 2024).length ≤ 1
    ∧ get_active_form_lock
        (applyLockCalls
          [⟨2024, "f1", "alice", "initial lock", "lock_2024_aaaaaaaa",
            "2024-01-01T00:00:00+00:00"⟩,
          ⟨2024, "f2", "bob", "regenerated", "lock_2024_bbbbbbbb",
            "2024-02-01T00:00:00+00:00"⟩]) 2024
      = (activeLocks
          (applyLockCalls
            [⟨2024, "f1", "alice", "initial lock", "lock_2024_aaaaaaaa",
              "2024-01-01T00:00:00+00:00"⟩,
            ⟨2024, "f2", "bob", "regenerated", "lock_2024_bbbbbbbb",
              "2024-02-01T00:00:00+00:00"⟩]) 2024).head? :=
  form_lock_single_active_invariant
    [⟨2024, "f1", "alice", "initial lock", "lock_2024_aaaaaaaa",
      "2024-01-01T00:00:00+00:00"⟩,
    ⟨2024, "f2", "bob", "regenerated", "lock_2024_bbbbbbbb",
      "2024-02-01T00:00:00+00:00"⟩] 2024

end TaxCredit
